import Mathlib

/-!
Verification of the stepstone deployment health-check engine.

This file gives a shallow embedding of the check execution and
result-aggregation framework of the stepstone tool (a health checker for a
distributed database's frontend / datanode / metasrv roles), and proves or
refutes the specification claims about it.

Network, storage and SQL effects are modelled by explicit oracle records: an
oracle field records the outcome the external world would return for one
operation of the corresponding source function.  Durations
(`std::time::Duration`) are modelled as natural numbers (elapsed
milliseconds); byte strings are modelled as `String`.
-/

namespace Stepstone

/-! ## String helpers (substring search, scheme stripping, u16 parsing) -/

/-- Check that `pat` occurs at the head of `hay` (`str::starts_with` on char
lists). -/
def listStartsWith : List Char → List Char → Bool
  | _, [] => true
  | [], _ :: _ => false
  | h :: t, p :: q => h == p && listStartsWith t q

/-- Check that `pat` occurs contiguously anywhere inside `hay`
(`str::contains` on char lists). -/
def containsSeq : List Char → List Char → Bool
  | [], pat => pat.isEmpty
  | c :: t, pat => listStartsWith (c :: t) pat || containsSeq t pat

/-- Rust `str::contains`: `pat` occurs contiguously inside `s`. -/
def strContains (s pat : String) : Bool :=
  containsSeq s.data pat.data

/-- Rust `str::strip_prefix` on char lists: remove `pat` from the head of
`hay` when it is there. -/
def stripSeq : List Char → List Char → Option (List Char)
  | hay, [] => some hay
  | [], _ :: _ => none
  | h :: t, p :: q => if h == p then stripSeq t q else none

/-- Index of the last occurrence of `c` in `cs` (Rust `str::rfind`). -/
def lastIndexOfAux (cs : List Char) (c : Char) (i : Nat) (best : Option Nat) : Option Nat :=
  match cs with
  | [] => best
  | h :: t => lastIndexOfAux t c (i + 1) (if h == c then some i else best)

/-- Index of the last occurrence of `c` in `cs`. -/
def lastIndexOf (cs : List Char) (c : Char) : Option Nat :=
  lastIndexOfAux cs c 0 none

/-- Index of the first occurrence of `c` in `cs` (Rust `str::find`). -/
def firstIndexOf (cs : List Char) (c : Char) : Option Nat :=
  match cs with
  | [] => none
  | h :: t => if h == c then some 0 else (firstIndexOf t c).map (· + 1)

/-- Rust `u16::from_str`: an optional leading `+`, then one or more ASCII
digits, and the value must fit in 16 bits; anything else is a parse error. -/
def parseU16 (s : List Char) : Option Nat :=
  let digits := match s with
    | '+' :: rest => rest
    | other => other
  if digits.isEmpty then none
  else if digits.all (fun c => c.isDigit) then
    let v := digits.foldl (fun acc c => acc * 10 + (c.toNat - 48)) 0
    if v ≤ 65535 then some v else none
  else none

/-! ## Result model (src/common.rs) -/

/-- Status of a check item (`CheckStatus` in src/common.rs). -/
inductive CheckStatus where
  | pass
  | fail
  | warning
deriving DecidableEq

/-- Detailed result for a specific check item (`CheckDetail` in
src/common.rs).  `duration` is elapsed milliseconds. -/
structure CheckDetail where
  item : String
  status : CheckStatus
  message : String
  duration : Option Nat
  suggestion : Option String
deriving DecidableEq

/-- Result of a component check (`CheckResult` in src/common.rs). -/
structure CheckResult where
  success : Bool
  message : String
  details : List CheckDetail
  total_duration : Option Nat
deriving DecidableEq

/-- Constructor `CheckDetail::pass`. -/
def CheckDetail.pass (item message : String) (duration : Option Nat) : CheckDetail :=
  ⟨item, CheckStatus.pass, message, duration, none⟩

/-- Constructor `CheckDetail::fail`. -/
def CheckDetail.fail (item message : String) (duration : Option Nat)
    (suggestion : Option String) : CheckDetail :=
  ⟨item, CheckStatus.fail, message, duration, suggestion⟩

/-- Constructor `CheckDetail::warning`. -/
def CheckDetail.warning (item message : String) (duration : Option Nat)
    (suggestion : Option String) : CheckDetail :=
  ⟨item, CheckStatus.warning, message, duration, suggestion⟩

/-- Shared duration reduction of the three `CheckResult` constructors:
`details.iter().filter_map(|d| d.duration).reduce(|acc, d| acc + d)`. -/
def reduceDurations (details : List CheckDetail) : Option Nat :=
  match details.filterMap (fun d => d.duration) with
  | [] => none
  | x :: xs => some (xs.foldl (· + ·) x)

/-- Explicit-verdict constructor `CheckResult::success` (renamed: `success` is
already the field name). -/
def CheckResult.mkSuccess (message : String) (details : List CheckDetail) : CheckResult :=
  { success := true, message := message, details := details,
    total_duration := reduceDurations details }

/-- Explicit-verdict constructor `CheckResult::failure`. -/
def CheckResult.mkFailure (message : String) (details : List CheckDetail) : CheckResult :=
  { success := false, message := message, details := details,
    total_duration := reduceDurations details }

/-- Derived constructor `CheckResult::from_details`. -/
def CheckResult.from_details (details : List CheckDetail) : CheckResult :=
  let success := details.all fun d =>
    d.status == CheckStatus.pass || d.status == CheckStatus.warning
  let has_warnings := details.any fun d => d.status == CheckStatus.warning
  let failed_count := (details.filter fun d => d.status == CheckStatus.fail).length
  let passed_count := (details.filter fun d => d.status == CheckStatus.pass).length
  let warning_count := (details.filter fun d => d.status == CheckStatus.warning).length
  let message :=
    if success then
      if has_warnings then
        "Checks completed with warnings (" ++ toString passed_count ++ " passed, "
          ++ toString warning_count ++ " warnings)"
      else
        "All checks passed (" ++ toString passed_count ++ " passed)"
    else
      "Some checks failed (" ++ toString passed_count ++ " passed, "
        ++ toString warning_count ++ " warnings, " ++ toString failed_count ++ " failed)"
  { success := success, message := message, details := details,
    total_duration := reduceDurations details }

/-! ## Helper lemmas about the result model -/

/-- Folding addition from `x` sums the list on top of `x`. -/
theorem foldl_add_eq (x : Nat) (xs : List Nat) :
    xs.foldl (· + ·) x = x + xs.sum := by
  induction xs generalizing x with
  | nil => simp
  | cons a t ih => simp [List.foldl_cons, ih, List.sum_cons]; omega

/-- Behaviour of the shared duration reduction. -/
theorem reduceDurations_eq (details : List CheckDetail) :
    reduceDurations details =
      match details.filterMap (fun d => d.duration) with
      | [] => none
      | l => some l.sum := by
  unfold reduceDurations
  cases h : details.filterMap (fun d => d.duration) with
  | nil => rfl
  | cons x xs => simp [foldl_add_eq, List.sum_cons]

/-- A detail's status contributes to success exactly when it is not `Fail`. -/
theorem status_ok_iff (s : CheckStatus) :
    ((s == CheckStatus.pass || s == CheckStatus.warning) = true) ↔ s ≠ CheckStatus.fail := by
  cases s <;> simp

/-- Success of `from_details` is the absence of `Fail` entries. -/
theorem from_details_success_eq (details : List CheckDetail) :
    (CheckResult.from_details details).success = true ↔
      ∀ d ∈ details, d.status ≠ CheckStatus.fail := by
  show (details.all fun d =>
    d.status == CheckStatus.pass || d.status == CheckStatus.warning) = true ↔ _
  rw [List.all_eq_true]
  exact forall_congr' fun d => forall_congr' fun _ => status_ok_iff d.status

/-- C1: for every list of `CheckDetail` values, the aggregate built by
`from_details` has `success` true if and only if no detail has status `Fail`
(`Warning` counts toward success), and its message is one of three templates
(all-pass, pass-with-warnings, has-failures), each naming the counts of
passed, warning and failed items. -/
theorem c1_from_details_success_and_message (details : List CheckDetail) :
    ((CheckResult.from_details details).success = true ↔
      ∀ d ∈ details, d.status ≠ CheckStatus.fail)
    ∧ ((∀ d ∈ details, d.status ≠ CheckStatus.fail) →
        (∀ d ∈ details, d.status ≠ CheckStatus.warning) →
        (CheckResult.from_details details).message =
          "All checks passed ("
            ++ toString (details.countP fun d => d.status == CheckStatus.pass)
            ++ " passed)")
    ∧ ((∀ d ∈ details, d.status ≠ CheckStatus.fail) →
        (∃ d ∈ details, d.status = CheckStatus.warning) →
        (CheckResult.from_details details).message =
          "Checks completed with warnings ("
            ++ toString (details.countP fun d => d.status == CheckStatus.pass)
            ++ " passed, "
            ++ toString (details.countP fun d => d.status == CheckStatus.warning)
            ++ " warnings)")
    ∧ ((∃ d ∈ details, d.status = CheckStatus.fail) →
        (CheckResult.from_details details).message =
          "Some checks failed ("
            ++ toString (details.countP fun d => d.status == CheckStatus.pass)
            ++ " passed, "
            ++ toString (details.countP fun d => d.status == CheckStatus.warning)
            ++ " warnings, "
            ++ toString (details.countP fun d => d.status == CheckStatus.fail)
            ++ " failed)") := by
  have hsucc := from_details_success_eq details
  have hcount : ∀ p : CheckDetail → Bool,
      (details.filter p).length = details.countP p := by
    intro p
    exact (List.countP_eq_length_filter p details).symm
  refine ⟨hsucc, ?_, ?_, ?_⟩
  · intro hnf hnw
    have h1 : (details.all fun d =>
        d.status == CheckStatus.pass || d.status == CheckStatus.warning) = true :=
      hsucc.mpr hnf
    have h2 : (details.any fun d => d.status == CheckStatus.warning) = false := by
      rw [Bool.eq_false_iff]
      intro hany
      obtain ⟨d, hd, hw⟩ := List.any_eq_true.mp hany
      exact hnw d hd (by simpa using hw)
    show (if _ then if _ then _ else _ else _) = _
    rw [h1, h2]
    simp [hcount]
  · intro hnf ⟨d, hd, hw⟩
    have h1 : (details.all fun d =>
        d.status == CheckStatus.pass || d.status == CheckStatus.warning) = true :=
      hsucc.mpr hnf
    have h2 : (details.any fun d => d.status == CheckStatus.warning) = true :=
      List.any_eq_true.mpr ⟨d, hd, by simp [hw]⟩
    show (if _ then if _ then _ else _ else _) = _
    rw [h1, h2]
    simp [hcount]
  · intro ⟨d, hd, hf⟩
    have h1 : (details.all fun d =>
        d.status == CheckStatus.pass || d.status == CheckStatus.warning) = false := by
      rw [Bool.eq_false_iff]
      intro hall
      exact absurd hf (hsucc.mp hall d hd)
    show (if _ then if _ then _ else _ else _) = _
    rw [h1]
    simp [hcount]

/-- C1 witness: evaluation of the three message templates on concrete lists. -/
theorem c1_witness :
    (CheckResult.from_details [CheckDetail.pass "a" "m" none]).message
        = "All checks passed (1 passed)"
    ∧ (CheckResult.from_details
        [CheckDetail.pass "a" "m" none,
         CheckDetail.warning "b" "m" none none]).message
        = "Checks completed with warnings (1 passed, 1 warnings)"
    ∧ (CheckResult.from_details
        [CheckDetail.pass "a" "m" none,
         CheckDetail.warning "b" "m" none none,
         CheckDetail.fail "c" "m" none none]).message
        = "Some checks failed (1 passed, 1 warnings, 1 failed)" := by
  refine ⟨?_, ?_, ?_⟩
  · have h := (c1_from_details_success_and_message
      [CheckDetail.pass "a" "m" none]).2.1 (by decide) (by decide)
    exact h.trans (by decide)
  · have h := (c1_from_details_success_and_message
      [CheckDetail.pass "a" "m" none,
       CheckDetail.warning "b" "m" none none]).2.2.1 (by decide)
      ⟨CheckDetail.warning "b" "m" none none, by decide, rfl⟩
    exact h.trans (by decide)
  · have h := (c1_from_details_success_and_message
      [CheckDetail.pass "a" "m" none,
       CheckDetail.warning "b" "m" none none,
       CheckDetail.fail "c" "m" none none]).2.2.2
      ⟨CheckDetail.fail "c" "m" none none, by decide, rfl⟩
    exact h.trans (by decide)

/-- C5: `total_duration` of the aggregate is `None` iff every detail's
duration is `None`; otherwise it is the sum of exactly the durations that are
present (absent durations are excluded, not treated as zero). -/
theorem c5_from_details_total_duration (details : List CheckDetail) :
    ((CheckResult.from_details details).total_duration = none ↔
      ∀ d ∈ details, d.duration = none)
    ∧ ((∃ d ∈ details, d.duration ≠ none) →
      (CheckResult.from_details details).total_duration =
        some ((details.filterMap fun d => d.duration).sum)) := by
  have hfd : (CheckResult.from_details details).total_duration
      = reduceDurations details := rfl
  constructor
  · rw [hfd, reduceDurations_eq]
    cases h : details.filterMap (fun d => d.duration) with
    | nil =>
      simpa using List.filterMap_eq_nil_iff.mp h
    | cons x xs =>
      simp only []
      constructor
      · intro hcontra
        exact absurd hcontra (by simp)
      · intro hall
        have : details.filterMap (fun d => d.duration) = [] :=
          List.filterMap_eq_nil_iff.mpr hall
        rw [this] at h
        exact absurd h (by simp)
  · rintro ⟨d, hd, hne⟩
    rw [hfd, reduceDurations_eq]
    cases h : details.filterMap (fun d => d.duration) with
    | nil =>
      exact absurd (List.filterMap_eq_nil_iff.mp h d hd) hne
    | cons x xs => simp

/-- C5 witness: a list mixing present and absent durations. -/
theorem c5_witness :
    (∃ d ∈ [CheckDetail.pass "a" "m" (some 3),
            CheckDetail.pass "b" "m" none,
            CheckDetail.pass "c" "m" (some 4)], d.duration ≠ none)
    ∧ (CheckResult.from_details
        [CheckDetail.pass "a" "m" (some 3),
         CheckDetail.pass "b" "m" none,
         CheckDetail.pass "c" "m" (some 4)]).total_duration = some 7 := by
  refine ⟨⟨CheckDetail.pass "a" "m" (some 3), by decide, by decide⟩, ?_⟩
  have h := (c5_from_details_total_duration
    [CheckDetail.pass "a" "m" (some 3),
     CheckDetail.pass "b" "m" none,
     CheckDetail.pass "c" "m" (some 4)]).2
    ⟨CheckDetail.pass "a" "m" (some 3), by decide, by decide⟩
  exact h.trans (by decide)

/-- C10: `from_details` on the empty list yields success with the all-pass
template at count zero and no total duration; the explicit-verdict
constructors force the success flag regardless of the details. -/
theorem c10_empty_and_explicit_constructors :
    CheckResult.from_details [] =
      { success := true, message := "All checks passed (0 passed)",
        details := [], total_duration := none }
    ∧ (∀ (msg : String) (ds : List CheckDetail),
        (CheckResult.mkSuccess msg ds).success = true)
    ∧ (∀ (msg : String) (ds : List CheckDetail),
        (CheckResult.mkFailure msg ds).success = false) := by
  exact ⟨by decide, fun _ _ => rfl, fun _ _ => rfl⟩

/-! ## Address resolver (src/frontend.rs `parse_address` / `parse_host_port`,
src/error.rs `MissingPort` / `InvalidPort`) -/

/-- Address parsing errors (`Error::MissingPort` / `Error::InvalidPort` in
src/error.rs). -/
inductive AddrError where
  | missingPort (address : String)
  | invalidPort (address : String) (portStr : String)
deriving DecidableEq

/-- Snafu display strings of the two address parsing errors. -/
def AddrError.display : AddrError → String
  | .missingPort a => "Address must contain port number: " ++ a
  | .invalidPort a p => "Invalid port number in address " ++ a ++ ": " ++ p

/-- Port substring extraction of `parse_host_port`: everything after the last
colon, truncated at the first `/`. -/
def portSub (addr : String) (colonPos : Nat) : List Char :=
  let portRaw := addr.data.drop (colonPos + 1)
  match firstIndexOf portRaw '/' with
  | some slashPos => portRaw.take slashPos
  | none => portRaw

/-- Parser of the `host:port` format (`FrontendChecker::parse_host_port`,
identical in `DatanodeChecker`). -/
def parse_host_port (addr : String) : Except AddrError (String × Nat) :=
  match lastIndexOf addr.data ':' with
  | some colonPos =>
    let host := String.mk (addr.data.take colonPos)
    let portChars := portSub addr colonPos
    match parseU16 portChars with
    | some p => Except.ok (host, p)
    | none => Except.error (AddrError.invalidPort addr (String.mk portChars))
  | none => Except.error (AddrError.missingPort addr)

/-- Scheme stripping of `parse_address`: remove a leading `http://` or
`https://` when present. -/
def schemeStrip (addr : String) : String :=
  match stripSeq addr.data ("http://".data) with
  | some rest => String.mk rest
  | none =>
    match stripSeq addr.data ("https://".data) with
    | some rest => String.mk rest
    | none => addr

/-- Address parser (`FrontendChecker::parse_address`, identical in
`DatanodeChecker`): strip an optional scheme, then parse `host:port`. -/
def parse_address (addr : String) : Except AddrError (String × Nat) :=
  parse_host_port (schemeStrip addr)

/-! ## Lemmas about strings and parsing -/

/-- Characters of a successfully stripped pattern occur in the haystack. -/
theorem stripSeq_some_subset (pat : List Char) :
    ∀ (hay rest : List Char), stripSeq hay pat = some rest →
      ∀ c ∈ pat, c ∈ hay := by
  induction pat with
  | nil => intro hay rest _ c hc; cases hc
  | cons p q ih =>
    intro hay rest hstrip c hc
    cases hay with
    | nil => cases hstrip
    | cons h t =>
      unfold stripSeq at hstrip
      cases hb : h == p with
      | false => rw [hb] at hstrip; cases hstrip
      | true =>
        rw [hb] at hstrip
        simp only [if_true] at hstrip
        have hhp : h = p := by simpa using hb
        cases hc with
        | head => exact hhp ▸ List.mem_cons_self h t
        | tail _ hq => exact List.mem_cons_of_mem h (ih t rest hstrip c hq)

/-- The last-index scan returns its accumulator when the character does not
occur. -/
theorem lastIndexOfAux_not_mem (c : Char) :
    ∀ (cs : List Char) (i : Nat) (best : Option Nat),
       (∀ x ∈ cs, x ≠ c) → lastIndexOfAux cs c i best = best := by
  intro cs
  induction cs with
  | nil => intro i best _; rfl
  | cons h t ih =>
    intro i best hne
    unfold lastIndexOfAux
    have hb : (h == c) = false := by
      simpa using hne h (List.mem_cons_self h t)
    rw [hb]
    exact ih (i + 1) best fun x hx => hne x (List.mem_cons_of_mem h hx)

/-- String append acts as list append on the underlying data. -/
theorem data_append (a b : String) : (a ++ b).data = a.data ++ b.data := by
  cases a; cases b; rfl

/-- A list starts with its own prefix. -/
theorem listStartsWith_append (pat rest : List Char) :
    listStartsWith (pat ++ rest) pat = true := by
  induction pat with
  | nil => rw [List.nil_append]; cases rest <;> simp [listStartsWith]
  | cons p q ih => simp [listStartsWith, ih]

/-- An empty pattern is found in any haystack. -/
theorem containsSeq_nil (hay : List Char) : containsSeq hay [] = true := by
  cases hay <;> simp [containsSeq, listStartsWith]

/-- A pattern occurring contiguously in a list is found by `containsSeq`. -/
theorem containsSeq_mid (l₁ pat l₂ : List Char) :
    containsSeq (l₁ ++ (pat ++ l₂)) pat = true := by
  induction l₁ with
  | nil =>
    cases pat with
    | nil => simpa using containsSeq_nil l₂
    | cons p q =>
      show containsSeq (p :: (q ++ l₂)) (p :: q) = true
      simp [containsSeq, listStartsWith, listStartsWith_append]
  | cons c t ih =>
    show containsSeq (c :: (t ++ (pat ++ l₂))) pat = true
    simp [containsSeq, ih]

/-- The invalid-port display message contains the recorded address and the
recorded port substring. -/
theorem invalidPort_display_contains (A P : String) :
    strContains (AddrError.display (AddrError.invalidPort A P)) A = true
    ∧ strContains (AddrError.display (AddrError.invalidPort A P)) P = true := by
  have hd : (AddrError.display (AddrError.invalidPort A P)).data
      = "Invalid port number in address ".data ++ (A.data ++ (": ".data ++ P.data)) := by
    simp [AddrError.display, data_append, List.append_assoc]
  constructor
  · show containsSeq _ _ = true
    rw [hd]
    exact containsSeq_mid _ _ _
  · show containsSeq _ _ = true
    rw [hd]
    have hsplit : "Invalid port number in address ".data ++ (A.data ++ (": ".data ++ P.data))
        = ("Invalid port number in address ".data ++ A.data ++ ": ".data) ++ (P.data ++ []) := by
      simp [List.append_assoc]
    rw [hsplit]
    exact containsSeq_mid _ _ _

/-- C3 counterexample: on the scheme-prefixed input `http://host:abc` the
invalid-port error records the scheme-stripped address `host:abc`, and its
display message does not contain the original input `http://host:abc`, so the
claim's "message contains the original address" fails on scheme-prefixed
inputs. -/
theorem c3_counterexample :
    parse_address "http://host:abc"
      = Except.error (AddrError.invalidPort "host:abc" "abc")
    ∧ strContains (AddrError.display (AddrError.invalidPort "host:abc" "abc"))
        "http://host:abc" = false
    ∧ strContains (AddrError.display (AddrError.invalidPort "host:abc" "abc"))
        "abc" = true := by
  refine ⟨rfl, by decide, by decide⟩

/-- C3 (amended): `host:1234` parses to `("host", 1234)`, `http://host:1234/x`
parses identically after scheme and path stripping; every input without a
colon fails with the missing-port kind; every input whose port substring is
not a valid unsigned 16-bit integer fails with the invalid-port kind whose
message contains the scheme-stripped address (not necessarily the original
input) and the offending port substring. -/
theorem c3_address_resolver :
    parse_address "host:1234" = Except.ok ("host", 1234)
    ∧ parse_address "http://host:1234/x" = Except.ok ("host", 1234)
    ∧ (∀ addr : String, (∀ c ∈ addr.data, c ≠ ':') →
        parse_address addr = Except.error (AddrError.missingPort addr))
    ∧ (∀ (addr : String) (i : Nat),
        lastIndexOf (schemeStrip addr).data ':' = some i →
        parseU16 (portSub (schemeStrip addr) i) = none →
        parse_address addr = Except.error (AddrError.invalidPort (schemeStrip addr)
          (String.mk (portSub (schemeStrip addr) i)))
        ∧ strContains (AddrError.display (AddrError.invalidPort (schemeStrip addr)
            (String.mk (portSub (schemeStrip addr) i)))) (schemeStrip addr) = true
        ∧ strContains (AddrError.display (AddrError.invalidPort (schemeStrip addr)
            (String.mk (portSub (schemeStrip addr) i))))
            (String.mk (portSub (schemeStrip addr) i)) = true) := by
  refine ⟨rfl, rfl, ?_, ?_⟩
  · intro addr hnc
    have h1 : stripSeq addr.data ("http://".data) = none := by
      cases hs : stripSeq addr.data ("http://".data) with
      | none => rfl
      | some rest =>
        have hmem : ':' ∈ addr.data :=
          stripSeq_some_subset _ _ _ hs ':' (by decide)
        exact absurd rfl (hnc ':' hmem)
    have h2 : stripSeq addr.data ("https://".data) = none := by
      cases hs : stripSeq addr.data ("https://".data) with
      | none => rfl
      | some rest =>
        have hmem : ':' ∈ addr.data :=
          stripSeq_some_subset _ _ _ hs ':' (by decide)
        exact absurd rfl (hnc ':' hmem)
    have hstrip : schemeStrip addr = addr := by
      unfold schemeStrip
      rw [h1, h2]
    have hlast : lastIndexOf addr.data ':' = none :=
      lastIndexOfAux_not_mem ':' addr.data 0 none hnc
    unfold parse_address parse_host_port
    rw [hstrip, hlast]
  · intro addr i hlast hbad
    refine ⟨?_, invalidPort_display_contains _ _⟩
    unfold parse_address parse_host_port
    rw [hlast]
    simp only [hbad]

/-- C3 witness: the theorem applied at `host` (missing port) and `host:abc`
(invalid port). -/
theorem c3_witness :
    parse_address "host" = Except.error (AddrError.missingPort "host")
    ∧ parse_address "host:abc"
        = Except.error (AddrError.invalidPort "host:abc" "abc")
    ∧ strContains (AddrError.display (AddrError.invalidPort "host:abc" "abc"))
        "host:abc" = true := by
  refine ⟨c3_address_resolver.2.2.1 "host" (by decide), ?_, ?_⟩
  · have h := (c3_address_resolver.2.2.2 "host:abc" 4 rfl rfl).1
    exact h.trans rfl
  · have h := (c3_address_resolver.2.2.2 "host:abc" 4 rfl rfl).2.1
    have he : schemeStrip "host:abc" = "host:abc" := rfl
    rw [he] at h
    exact h

/-! ## Metasrv checker: etcd backend (src/metasrv.rs `check_etcd_new`)

The kv store is modelled by an oracle.  To make retry behaviour observable,
the get outcome is a function of the key and of the attempt number; the
source performs exactly one get, which consults attempt `0`. -/

/-- Result of one kv get: `Ok(Some bytes)`, `Ok(None)` or an error. -/
inductive KvGetResult where
  | ok (value : Option String)
  | err (e : String)
deriving DecidableEq

/-- Oracle for the etcd store operations of `check_etcd_new`. -/
structure EtcdOracle where
  connect : Except String Unit
  put : Except String Unit
  get : String → Nat → KvGetResult
  delete : Except String Unit
  elapsed : Nat

/-- Metasrv configuration (the fields of `MetasrvConfig` consumed by the
checker; `store_key_pfx` is the source's `store_key_prefix` field). -/
structure MetasrvCfg where
  store_addrs : List String
  store_key_pfx : Option String
  backend : String
  meta_table_name : Option String

/-- Probe key of `check_etcd_new`. -/
def etcdTestKey (cfg : MetasrvCfg) : String :=
  cfg.store_key_pfx.getD "" ++ "__stepstone_test"

/-- Probe value of `check_etcd_new` (`b"stepstone_test_value"`). -/
def etcdTestValue : String := "stepstone_test_value"

/-- Debug rendering of the endpoint list (`{:?}` on `Vec<String>`). -/
def debugStrList (l : List String) : String :=
  "[" ++ String.intercalate ", " (l.map fun a => "\"" ++ a ++ "\"") ++ "]"

/-- Detail emitted for the single GET of `check_etcd_new`. -/
def etcdGetDetail (r : KvGetResult) : CheckDetail :=
  match r with
  | KvGetResult.ok (some v) =>
    if v = etcdTestValue then
      CheckDetail.pass "Etcd GET Operation"
        "GET operation successful and data matches" none
    else
      CheckDetail.fail "Etcd GET Operation"
        "GET operation returned incorrect data" none
        (some "Check etcd data consistency")
  | KvGetResult.ok none =>
    CheckDetail.fail "Etcd GET Operation" "GET operation returned no data" none
      (some "Check etcd connectivity and data persistence")
  | KvGetResult.err e =>
    CheckDetail.fail "Etcd GET Operation" ("GET operation failed: " ++ e) none
      (some "Check etcd connectivity and permissions")

/-- Detail emitted for the DELETE of `check_etcd_new`. -/
def etcdDeleteDetail (r : Except String Unit) : CheckDetail :=
  match r with
  | Except.ok _ =>
    CheckDetail.pass "Etcd DELETE Operation" "DELETE operation successful" none
  | Except.error e =>
    CheckDetail.fail "Etcd DELETE Operation" ("DELETE operation failed: " ++ e)
      none (some "Check etcd permissions")

/-- Checker `MetasrvChecker::check_etcd_new`: connect, then PUT a probe key,
then a single GET of it, then DELETE it. -/
def check_etcd_new (cfg : MetasrvCfg) (o : EtcdOracle) : CheckResult :=
  CheckResult.from_details (
    match o.connect with
    | Except.error e =>
      [CheckDetail.fail "Etcd Connection" ("Failed to connect to etcd: " ++ e)
        (some o.elapsed) (some "Check etcd service status and network connectivity")]
    | Except.ok _ =>
      match o.put with
      | Except.error e =>
        [CheckDetail.fail "Etcd Connection" ("Failed to connect to etcd: " ++ e)
          (some o.elapsed) (some "Check etcd service status and network connectivity")]
      | Except.ok _ =>
        [CheckDetail.pass "Etcd Connection"
          ("Successfully connected to etcd endpoints: " ++ debugStrList cfg.store_addrs)
          (some o.elapsed),
         CheckDetail.pass "Etcd PUT Operation" "PUT operation successful" none,
         etcdGetDetail (o.get (etcdTestKey cfg) 0),
         etcdDeleteDetail o.delete])

/-- Item name of the GET detail. -/
theorem etcdGetDetail_item (r : KvGetResult) :
    (etcdGetDetail r).item = "Etcd GET Operation" := by
  cases r with
  | ok v =>
    cases v with
    | none => rfl
    | some s =>
      by_cases h : s = etcdTestValue <;>
        simp [etcdGetDetail, h, CheckDetail.pass, CheckDetail.fail]
  | err e => rfl

/-- Item name of the DELETE detail. -/
theorem etcdDeleteDetail_item (r : Except String Unit) :
    (etcdDeleteDetail r).item = "Etcd DELETE Operation" := by
  cases r <;> rfl

/-- Status of the GET detail: `Pass` exactly on a byte-exact match. -/
theorem etcdGetDetail_status (r : KvGetResult) :
    (etcdGetDetail r).status = CheckStatus.pass ↔
      r = KvGetResult.ok (some etcdTestValue) := by
  cases r with
  | ok v =>
    cases v with
    | none => simp [etcdGetDetail, CheckDetail.fail]
    | some s =>
      by_cases h : s = etcdTestValue
      · simp [etcdGetDetail, h, CheckDetail.pass]
      · simp [etcdGetDetail, h, CheckDetail.fail]
  | err e => simp [etcdGetDetail, CheckDetail.fail]

/-- With a successful connection and PUT, the GET-step details of
`check_etcd_new` are exactly the one detail of the single read attempt. -/
theorem check_etcd_new_get_filtered (cfg : MetasrvCfg) (o : EtcdOracle)
    (hc : o.connect = Except.ok ()) (hp : o.put = Except.ok ()) :
    ((check_etcd_new cfg o).details.filter
        fun d => d.item == "Etcd GET Operation")
      = [etcdGetDetail (o.get (etcdTestKey cfg) 0)] := by
  have hdet : (check_etcd_new cfg o).details =
      [CheckDetail.pass "Etcd Connection"
        ("Successfully connected to etcd endpoints: " ++ debugStrList cfg.store_addrs)
        (some o.elapsed),
       CheckDetail.pass "Etcd PUT Operation" "PUT operation successful" none,
       etcdGetDetail (o.get (etcdTestKey cfg) 0),
       etcdDeleteDetail o.delete] := by
    simp only [check_etcd_new, hc, hp]
    rfl
  rw [hdet]
  simp [List.filter, CheckDetail.pass, etcdGetDetail_item, etcdDeleteDetail_item]

/-- C2 counterexample: an oracle whose read attempts 1 and 2 (indices 0 and 1)
return stale bytes while attempt 3 (index 2) would return the matching bytes.
The claim demands a Pass for the GET step; the code reads only once and emits
a Fail, and the mismatch Fail message does not mention the attempt count 3. -/
theorem c2_counterexample :
    ((check_etcd_new
        { store_addrs := ["127.0.0.1:2379"], store_key_pfx := none,
          backend := "etcd_store", meta_table_name := none }
        { connect := Except.ok (), put := Except.ok (),
          get := fun _ attempt =>
            if attempt ≥ 2 then KvGetResult.ok (some etcdTestValue)
            else KvGetResult.ok (some "stale"),
          delete := Except.ok (), elapsed := 5 }).details.filter
        fun d => d.item == "Etcd GET Operation")
      = [CheckDetail.fail "Etcd GET Operation"
          "GET operation returned incorrect data" none
          (some "Check etcd data consistency")]
    ∧ (fun (_ : String) (attempt : Nat) =>
        if attempt ≥ 2 then KvGetResult.ok (some etcdTestValue)
        else KvGetResult.ok (some "stale")) "__stepstone_test" 2
      = KvGetResult.ok (some etcdTestValue)
    ∧ strContains "GET operation returned incorrect data" "3" = false := by
  refine ⟨rfl, rfl, by decide⟩

/-- C2 (amended): after a successful probe-key write the read-back is
performed exactly once — there is no retry loop.  Exactly one GET detail is
emitted; it is a Pass precisely when the single read returns the matching
bytes; the checker's outcome depends only on read attempt 0, never on later
attempts; and on a mismatching read the Fail message does not mention the
attempt count 3. -/
theorem c2_etcd_single_read (cfg : MetasrvCfg) (o : EtcdOracle)
    (hc : o.connect = Except.ok ()) (hp : o.put = Except.ok ()) :
    (((check_etcd_new cfg o).details.filter
        fun d => d.item == "Etcd GET Operation").length = 1)
    ∧ (∀ d ∈ (check_etcd_new cfg o).details.filter
        (fun d => d.item == "Etcd GET Operation"),
        (d.status = CheckStatus.pass ↔
          o.get (etcdTestKey cfg) 0 = KvGetResult.ok (some etcdTestValue)))
    ∧ (∀ o' : EtcdOracle, o'.connect = o.connect → o'.put = o.put →
        o'.delete = o.delete → o'.elapsed = o.elapsed →
        o'.get (etcdTestKey cfg) 0 = o.get (etcdTestKey cfg) 0 →
        check_etcd_new cfg o' = check_etcd_new cfg o)
    ∧ (∀ v, o.get (etcdTestKey cfg) 0 = KvGetResult.ok (some v) →
        v ≠ etcdTestValue →
        ∀ d ∈ (check_etcd_new cfg o).details.filter
          (fun d => d.item == "Etcd GET Operation"),
          strContains d.message "3" = false) := by
  have hfilter := check_etcd_new_get_filtered cfg o hc hp
  refine ⟨by rw [hfilter]; rfl, ?_, ?_, ?_⟩
  · intro d hd
    rw [hfilter] at hd
    have : d = etcdGetDetail (o.get (etcdTestKey cfg) 0) := by simpa using hd
    rw [this]
    exact etcdGetDetail_status _
  · intro o' h1 h2 h3 h4 h5
    unfold check_etcd_new
    rw [h1, h2, h3, h4, h5]
  · intro v hv hne d hd
    rw [hfilter] at hd
    have hdeq : d = etcdGetDetail (o.get (etcdTestKey cfg) 0) := by simpa using hd
    rw [hdeq, hv]
    simp [etcdGetDetail, hne, CheckDetail.fail]
    decide

/-- C2 witness: the theorem applied to a concrete oracle whose single read
matches, and to a variant oracle differing only at attempts past the first. -/
theorem c2_witness :
    ((check_etcd_new
        { store_addrs := ["e1:2379"], store_key_pfx := some "/g",
          backend := "etcd_store", meta_table_name := none }
        { connect := Except.ok (), put := Except.ok (),
          get := fun _ _ => KvGetResult.ok (some etcdTestValue),
          delete := Except.ok (), elapsed := 1 }).details.filter
        fun d => d.item == "Etcd GET Operation").length = 1
    ∧ check_etcd_new
        { store_addrs := ["e1:2379"], store_key_pfx := some "/g",
          backend := "etcd_store", meta_table_name := none }
        { connect := Except.ok (), put := Except.ok (),
          get := fun _ n =>
            if n = 0 then KvGetResult.ok (some etcdTestValue)
            else KvGetResult.err "late attempts differ",
          delete := Except.ok (), elapsed := 1 }
      = check_etcd_new
        { store_addrs := ["e1:2379"], store_key_pfx := some "/g",
          backend := "etcd_store", meta_table_name := none }
        { connect := Except.ok (), put := Except.ok (),
          get := fun _ _ => KvGetResult.ok (some etcdTestValue),
          delete := Except.ok (), elapsed := 1 } := by
  constructor
  · exact (c2_etcd_single_read _ _ rfl rfl).1
  · exact (c2_etcd_single_read _
      { connect := Except.ok (), put := Except.ok (),
        get := fun _ _ => KvGetResult.ok (some etcdTestValue),
        delete := Except.ok (), elapsed := 1 } rfl rfl).2.2.1 _ rfl rfl rfl rfl rfl

/-! ## Metasrv checker: SQL backends (src/metasrv.rs `check_postgres_new`,
`check_mysql_new`, `test_postgres_permissions`,
`test_postgres_create_permissions`) -/

/-- Oracle for one run of the PostgreSQL permission probes.  `cleanupDelete`
records the cleanup DELETE whose result the source discards (`let _ = ...`);
it is kept to model that the operation occurs but cannot influence the
outcome. -/
structure PermOracle where
  selectCount : Except String Unit
  insertProbe : Except String Unit
  cleanupDelete : Except String Unit

/-- Probe `MetasrvChecker::test_postgres_permissions`: a count query for read
permission, then — only if it succeeded — an upsert probe for write
permission followed by cleanup. -/
def test_postgres_permissions (tableName : String) (o : PermOracle) : List CheckDetail :=
  match o.selectCount with
  | Except.error e =>
    [CheckDetail.fail "PostgreSQL Read Permission"
      ("Failed to read from table \x27" ++ tableName ++ "\x27: " ++ e) none
      (some "Grant SELECT permission on the metadata table")]
  | Except.ok _ =>
    CheckDetail.pass "PostgreSQL Read Permission"
      ("Successfully read from table \x27" ++ tableName ++ "\x27") none ::
    (match o.insertProbe with
     | Except.ok _ =>
       [CheckDetail.pass "PostgreSQL Write Permission"
         ("Successfully wrote to table \x27" ++ tableName ++ "\x27") none]
     | Except.error e =>
       [CheckDetail.fail "PostgreSQL Write Permission"
         ("Failed to write to table \x27" ++ tableName ++ "\x27: " ++ e) none
         (some "Grant INSERT/UPDATE permission on the metadata table")])

/-- Oracle for the PostgreSQL backend check.  The permission probes can run
twice (on the existing table, or on the freshly created one), hence two
`PermOracle` fields. -/
structure PgOracle where
  connect : Except String Unit
  elapsed : Nat
  tableExists : Except String Bool
  perm : PermOracle
  createTable : Except String Unit
  permAfterCreate : PermOracle

/-- Probe `MetasrvChecker::test_postgres_create_permissions`: create the
table, and on success re-run the read/write permission probes on it. -/
def test_postgres_create_permissions (tableName : String) (o : PgOracle) : List CheckDetail :=
  match o.createTable with
  | Except.ok _ =>
    CheckDetail.pass "PostgreSQL Create Permission"
      ("Successfully created/verified table \x27" ++ tableName ++ "\x27") none ::
    test_postgres_permissions tableName o.permAfterCreate
  | Except.error e =>
    [CheckDetail.fail "PostgreSQL Create Permission"
      ("Failed to create table \x27" ++ tableName ++ "\x27: " ++ e) none
      (some "Grant CREATE permission on the database/schema")]

/-- Checker `MetasrvChecker::check_postgres_new`. -/
def check_postgres_new (cfg : MetasrvCfg) (o : PgOracle) : CheckResult :=
  CheckResult.from_details (
    match cfg.store_addrs.head? with
    | none =>
      [CheckDetail.fail "PostgreSQL Configuration" "No PostgreSQL address configured"
        none (some "Add PostgreSQL connection string to store_addrs")]
    | some addr =>
      match o.connect with
      | Except.error e =>
        [CheckDetail.fail "PostgreSQL Connection"
          ("Failed to connect to PostgreSQL: " ++ e) (some o.elapsed)
          (some "Check connection string, network connectivity, and database availability")]
      | Except.ok _ =>
        let tableName := cfg.meta_table_name.getD "greptime_metasrv"
        CheckDetail.pass "PostgreSQL Connection"
          ("Successfully connected to PostgreSQL: " ++ addr) (some o.elapsed) ::
        (match o.tableExists with
         | Except.ok true =>
           CheckDetail.pass "Metadata Table Existence"
             ("Table \x27" ++ tableName ++ "\x27 exists") none ::
           test_postgres_permissions tableName o.perm
         | Except.ok false =>
           CheckDetail.warning "Metadata Table Existence"
             ("Table \x27" ++ tableName ++ "\x27 does not exist, will be created automatically")
             none (some "This is normal for first-time setup") ::
           test_postgres_create_permissions tableName o
         | Except.error e =>
           [CheckDetail.fail "Metadata Table Check"
             ("Failed to check table existence: " ++ e) none
             (some "Check database permissions and schema access")]))

/-- Oracle for the MySQL backend check (the source performs no permission or
create-table probes for MySQL, so only connection and table existence have
outcomes). -/
structure MySqlOracle where
  connect : Except String Unit
  elapsed : Nat
  tableExists : Except String Bool

/-- Checker `MetasrvChecker::check_mysql_new`: connection and table-existence
check only. -/
def check_mysql_new (cfg : MetasrvCfg) (o : MySqlOracle) : CheckResult :=
  CheckResult.from_details (
    match cfg.store_addrs.head? with
    | none =>
      [CheckDetail.fail "MySQL Configuration" "No MySQL address configured"
        none (some "Add MySQL connection string to store_addrs")]
    | some addr =>
      match o.connect with
      | Except.error e =>
        [CheckDetail.fail "MySQL Connection"
          ("Failed to connect to MySQL: " ++ e) (some o.elapsed)
          (some "Check connection string, network connectivity, and database availability")]
      | Except.ok _ =>
        let tableName := cfg.meta_table_name.getD "greptime_metasrv"
        CheckDetail.pass "MySQL Connection"
          ("Successfully connected to MySQL: " ++ addr) (some o.elapsed) ::
        (match o.tableExists with
         | Except.ok true =>
           [CheckDetail.pass "Metadata Table Existence"
             ("Table \x27" ++ tableName ++ "\x27 exists") none]
         | Except.ok false =>
           [CheckDetail.warning "Metadata Table Existence"
             ("Table \x27" ++ tableName ++ "\x27 does not exist, will be created automatically")
             none (some "This is normal for first-time setup")]
         | Except.error e =>
           [CheckDetail.fail "Metadata Table Check"
             ("Failed to check table existence: " ++ e) none
             (some "Check database permissions")]))

/-- Dispatch `MetasrvChecker::check` over the configured backend family. -/
def metasrv_check (cfg : MetasrvCfg) (eo : EtcdOracle) (po : PgOracle)
    (mo : MySqlOracle) : CheckResult :=
  if cfg.backend = "etcd_store" then check_etcd_new cfg eo
  else if cfg.backend = "postgres_store" then check_postgres_new cfg po
  else if cfg.backend = "mysql_store" then check_mysql_new cfg mo
  else if cfg.backend = "memory_store" then
    CheckResult.mkSuccess "Memory store requires no external dependencies"
      [CheckDetail.pass "Memory Store" "Memory store is always available" none]
  else
    CheckResult.mkFailure ("Unknown store type: " ++ cfg.backend)
      [CheckDetail.fail "Store Type" ("Unsupported store type: " ++ cfg.backend) none
        (some "Use one of: etcd_store, postgres_store, mysql_store, memory_store")]

/-- C6 counterexample: with a live MySQL connection and an existing metadata
table, the MySQL checker emits exactly the connection and table-existence
details and performs no permission probe at all, contradicting the claim that
both relational families probe read and write permission. -/
theorem c6_counterexample :
    ((check_mysql_new
        { store_addrs := ["mysql://user@host/db"], store_key_pfx := none,
          backend := "mysql_store", meta_table_name := none }
        { connect := Except.ok (), elapsed := 2,
          tableExists := Except.ok true }).details.length = 2)
    ∧ (∀ d ∈ (check_mysql_new
        { store_addrs := ["mysql://user@host/db"], store_key_pfx := none,
          backend := "mysql_store", meta_table_name := none }
        { connect := Except.ok (), elapsed := 2,
          tableExists := Except.ok true }).details,
        strContains d.item "Permission" = false) := by
  decide

/-- C6 (amended): only the PostgreSQL verifier probes permissions.  When its
read probe fails the write probe is skipped; when it succeeds the write probe
runs; a missing table yields a Warning; a successful create-table probe is
followed by re-running the read/write probes on the new table.  The MySQL
verifier checks only connection and table existence (missing table also a
Warning) and performs no permission or create-table probes. -/
theorem c6_sql_permission_probes :
    (∀ (tn : String) (o : PermOracle) (e : String),
      o.selectCount = Except.error e →
      test_postgres_permissions tn o
        = [CheckDetail.fail "PostgreSQL Read Permission"
            ("Failed to read from table \x27" ++ tn ++ "\x27: " ++ e) none
            (some "Grant SELECT permission on the metadata table")])
    ∧ (∀ (tn : String) (o : PermOracle), o.selectCount = Except.ok () →
      (test_postgres_permissions tn o).map (fun d => d.item)
        = ["PostgreSQL Read Permission", "PostgreSQL Write Permission"])
    ∧ (∀ (cfg : MetasrvCfg) (o : PgOracle) (addr : String),
        cfg.store_addrs.head? = some addr → o.connect = Except.ok () →
        o.tableExists = Except.ok false →
        (check_postgres_new cfg o).details.get? 1
          = some (CheckDetail.warning "Metadata Table Existence"
              ("Table \x27" ++ cfg.meta_table_name.getD "greptime_metasrv"
                ++ "\x27 does not exist, will be created automatically") none
              (some "This is normal for first-time setup"))
        ∧ (o.createTable = Except.ok () →
           ∃ pre, (check_postgres_new cfg o).details
             = pre ++ test_postgres_permissions
                 (cfg.meta_table_name.getD "greptime_metasrv") o.permAfterCreate))
    ∧ (∀ (cfg : MetasrvCfg) (o : MySqlOracle) (addr : String),
        cfg.store_addrs.head? = some addr → o.connect = Except.ok () →
        (o.tableExists = Except.ok true →
          (check_mysql_new cfg o).details.map (fun d => d.item)
            = ["MySQL Connection", "Metadata Table Existence"])
        ∧ (o.tableExists = Except.ok false →
          (check_mysql_new cfg o).details.get? 1
            = some (CheckDetail.warning "Metadata Table Existence"
                ("Table \x27" ++ cfg.meta_table_name.getD "greptime_metasrv"
                  ++ "\x27 does not exist, will be created automatically") none
                (some "This is normal for first-time setup")))) := by
  refine ⟨?_, ?_, ?_, ?_⟩
  · intro tn o e hsel
    simp only [test_postgres_permissions, hsel]
  · intro tn o hsel
    simp only [test_postgres_permissions, hsel]
    cases o.insertProbe <;>
      simp [CheckDetail.pass, CheckDetail.fail]
  · intro cfg o addr hhead hconn hexists
    constructor
    · simp only [check_postgres_new, hhead, hconn, hexists]
      rfl
    · intro hcreate
      refine ⟨[CheckDetail.pass "PostgreSQL Connection"
          ("Successfully connected to PostgreSQL: " ++ addr) (some o.elapsed),
        CheckDetail.warning "Metadata Table Existence"
          ("Table \x27" ++ cfg.meta_table_name.getD "greptime_metasrv"
            ++ "\x27 does not exist, will be created automatically") none
          (some "This is normal for first-time setup"),
        CheckDetail.pass "PostgreSQL Create Permission"
          ("Successfully created/verified table \x27"
            ++ cfg.meta_table_name.getD "greptime_metasrv" ++ "\x27") none], ?_⟩
      simp only [check_postgres_new, hhead, hconn, hexists,
        test_postgres_create_permissions, hcreate]
      rfl
  · intro cfg o addr hhead hconn
    constructor
    · intro hexists
      simp only [check_mysql_new, hhead, hconn, hexists]
      rfl
    · intro hexists
      simp only [check_mysql_new, hhead, hconn, hexists]
      rfl

/-- C6 witness: the theorem applied at concrete tables, oracles and
configurations for each of its four parts. -/
theorem c6_witness :
    test_postgres_permissions "t"
        { selectCount := Except.error "denied", insertProbe := Except.ok (),
          cleanupDelete := Except.ok () }
      = [CheckDetail.fail "PostgreSQL Read Permission"
          "Failed to read from table \x27t\x27: denied" none
          (some "Grant SELECT permission on the metadata table")]
    ∧ (test_postgres_permissions "t"
        { selectCount := Except.ok (), insertProbe := Except.ok (),
          cleanupDelete := Except.ok () }).map (fun d => d.item)
      = ["PostgreSQL Read Permission", "PostgreSQL Write Permission"]
    ∧ (∃ pre, (check_postgres_new
        { store_addrs := ["pg://h"], store_key_pfx := none,
          backend := "postgres_store", meta_table_name := none }
        { connect := Except.ok (), elapsed := 1, tableExists := Except.ok false,
          perm := { selectCount := Except.ok (), insertProbe := Except.ok (),
                    cleanupDelete := Except.ok () },
          createTable := Except.ok (),
          permAfterCreate := { selectCount := Except.ok (),
                               insertProbe := Except.ok (),
                               cleanupDelete := Except.ok () } }).details
      = pre ++ test_postgres_permissions "greptime_metasrv"
          { selectCount := Except.ok (), insertProbe := Except.ok (),
            cleanupDelete := Except.ok () })
    ∧ (check_mysql_new
        { store_addrs := ["mysql://h"], store_key_pfx := none,
          backend := "mysql_store", meta_table_name := none }
        { connect := Except.ok (), elapsed := 1,
          tableExists := Except.ok true }).details.map (fun d => d.item)
      = ["MySQL Connection", "Metadata Table Existence"] := by
  refine ⟨?_, ?_, ?_, ?_⟩
  · have h := c6_sql_permission_probes.1 "t"
      { selectCount := Except.error "denied", insertProbe := Except.ok (),
        cleanupDelete := Except.ok () } "denied" rfl
    exact h.trans (by decide)
  · exact c6_sql_permission_probes.2.1 "t"
      { selectCount := Except.ok (), insertProbe := Except.ok (),
        cleanupDelete := Except.ok () } rfl
  · exact (c6_sql_permission_probes.2.2.1
      { store_addrs := ["pg://h"], store_key_pfx := none,
        backend := "postgres_store", meta_table_name := none }
      { connect := Except.ok (), elapsed := 1, tableExists := Except.ok false,
        perm := { selectCount := Except.ok (), insertProbe := Except.ok (),
                  cleanupDelete := Except.ok () },
        createTable := Except.ok (),
        permAfterCreate := { selectCount := Except.ok (),
                             insertProbe := Except.ok (),
                             cleanupDelete := Except.ok () } }
      "pg://h" rfl rfl rfl).2 rfl
  · exact (c6_sql_permission_probes.2.2.2
      { store_addrs := ["mysql://h"], store_key_pfx := none,
        backend := "mysql_store", meta_table_name := none }
      { connect := Except.ok (), elapsed := 1, tableExists := Except.ok true }
      "mysql://h" rfl rfl).1 rfl

/-- C7: for every metadata-store configuration whose backend family is the
in-memory store, `check()` returns a successful result with exactly one Pass
detail, and no backend oracle is consulted (the result is identical for any
two oracle assignments). -/
theorem c7_memory_store (cfg : MetasrvCfg) (h : cfg.backend = "memory_store")
    (eo eo' : EtcdOracle) (po po' : PgOracle) (mo mo' : MySqlOracle) :
    metasrv_check cfg eo po mo =
      { success := true,
        message := "Memory store requires no external dependencies",
        details := [CheckDetail.pass "Memory Store"
          "Memory store is always available" none],
        total_duration := none }
    ∧ metasrv_check cfg eo po mo = metasrv_check cfg eo' po' mo'
    ∧ (metasrv_check cfg eo po mo).details.length = 1
    ∧ (∀ d ∈ (metasrv_check cfg eo po mo).details, d.status = CheckStatus.pass) := by
  have hres : ∀ (a : EtcdOracle) (b : PgOracle) (c : MySqlOracle),
      metasrv_check cfg a b c =
        { success := true,
          message := "Memory store requires no external dependencies",
          details := [CheckDetail.pass "Memory Store"
            "Memory store is always available" none],
          total_duration := none } := by
    intro a b c
    unfold metasrv_check
    rw [h]
    rfl
  refine ⟨hres eo po mo, (hres eo po mo).trans (hres eo' po' mo').symm, ?_, ?_⟩
  · rw [hres eo po mo]
    rfl
  · rw [hres eo po mo]
    intro d hd
    have : d = CheckDetail.pass "Memory Store" "Memory store is always available" none := by
      simpa using hd
    rw [this]
    rfl

/-- Oracle assignment in which every external operation would report an
error; consulting it anywhere would surface in the check result. -/
def allErrEtcd : EtcdOracle :=
  { connect := Except.error "unreachable", put := Except.error "unreachable",
    get := fun _ _ => KvGetResult.err "unreachable",
    delete := Except.error "unreachable", elapsed := 0 }

/-- PostgreSQL analogue of `allErrEtcd`. -/
def allErrPg : PgOracle :=
  { connect := Except.error "unreachable", elapsed := 0,
    tableExists := Except.error "unreachable",
    perm := { selectCount := Except.error "unreachable",
              insertProbe := Except.error "unreachable",
              cleanupDelete := Except.error "unreachable" },
    createTable := Except.error "unreachable",
    permAfterCreate := { selectCount := Except.error "unreachable",
                         insertProbe := Except.error "unreachable",
                         cleanupDelete := Except.error "unreachable" } }

/-- MySQL analogue of `allErrEtcd`. -/
def allErrMySql : MySqlOracle :=
  { connect := Except.error "unreachable", elapsed := 0,
    tableExists := Except.error "unreachable" }

/-- C7 witness: the theorem applied at a concrete memory-store configuration
over an oracle assignment whose every operation would fail. -/
theorem c7_witness :
    metasrv_check
      { store_addrs := [], store_key_pfx := none,
        backend := "memory_store", meta_table_name := none }
      allErrEtcd allErrPg allErrMySql
      = { success := true,
          message := "Memory store requires no external dependencies",
          details := [CheckDetail.pass "Memory Store"
            "Memory store is always available" none],
          total_duration := none } := by
  exact (c7_memory_store
    { store_addrs := [], store_key_pfx := none,
      backend := "memory_store", meta_table_name := none }
    rfl allErrEtcd allErrEtcd allErrPg allErrPg allErrMySql allErrMySql).1

/-! ## Connectivity probe (src/frontend.rs and src/datanode.rs
`check_metasrv_connectivity`)

The TCP dial of endpoint `i` is modelled by an oracle indexed by the
endpoint's position in the configured list. -/

/-- Outcome of one bounded TCP connect: connected, error, or timeout. -/
inductive ConnectOutcome where
  | ok
  | err (e : String)
  | timeout
deriving DecidableEq

/-- Oracle for the per-endpoint TCP dials. -/
structure ConnOracle where
  connect : Nat → ConnectOutcome
  elapsed : Nat → Nat

/-- Detail emitted for endpoint `i` with address `addr` in one iteration of
the connectivity loop (identical in frontend.rs and datanode.rs). -/
def endpoint_detail (o : ConnOracle) (i : Nat) (addr : String) : CheckDetail :=
  match parse_address addr with
  | Except.error e =>
    CheckDetail.fail ("Metasrv Address " ++ toString (i + 1) ++ " Parsing")
      ("Failed to parse address \x27" ++ addr ++ "\x27: " ++ e.display) none
      (some "Check address format (should be host:port)")
  | Except.ok _ =>
    match o.connect i with
    | ConnectOutcome.ok =>
      CheckDetail.pass ("Metasrv Connectivity " ++ toString (i + 1))
        ("Successfully connected to metasrv at " ++ addr) (some (o.elapsed i))
    | ConnectOutcome.err e =>
      CheckDetail.fail ("Metasrv Connectivity " ++ toString (i + 1))
        ("Failed to connect to metasrv at " ++ addr ++ ": " ++ e) (some (o.elapsed i))
        (some "Check if metasrv is running and accessible")
    | ConnectOutcome.timeout =>
      CheckDetail.fail ("Metasrv Connectivity " ++ toString (i + 1))
        ("Connection to metasrv at " ++ addr ++ " timed out") (some (o.elapsed i))
        (some "Check network connectivity and metasrv availability")

/-- Frontend configuration (the field of `FrontendConfig` consumed by the
connectivity probe). -/
structure FrontendCfg where
  metasrv_addrs : List String

/-- Probe `FrontendChecker::check_metasrv_connectivity`. -/
def frontend_check_metasrv_connectivity (cfg : FrontendCfg) (o : ConnOracle) : CheckResult :=
  if cfg.metasrv_addrs.isEmpty then
    CheckResult.from_details
      [CheckDetail.fail "Metasrv Configuration" "No metasrv addresses configured" none
        (some "Add metasrv addresses to metasrv_addrs configuration")]
  else
    CheckResult.from_details
      (cfg.metasrv_addrs.enum.map fun p => endpoint_detail o p.1 p.2)

/-- Probe `DatanodeChecker::check_metasrv_connectivity` (the datanode reads
the endpoint list from an optional `meta_client` section). -/
def datanode_check_metasrv_connectivity (metaClient : Option (List String))
    (o : ConnOracle) : CheckResult :=
  match metaClient with
  | none =>
    CheckResult.from_details
      [CheckDetail.fail "Metasrv Configuration" "No meta_client configuration found" none
        (some "Configure meta_client section in the configuration file")]
  | some addrs =>
    if addrs.isEmpty then
      CheckResult.from_details
        [CheckDetail.fail "Metasrv Configuration" "No metasrv addresses configured" none
          (some "Configure metasrv_addrs in the meta_client section")]
    else
      CheckResult.from_details (addrs.enum.map fun p => endpoint_detail o p.1 p.2)

/-- C8: for an empty configured endpoint list both connectivity probes emit a
single Fail naming the missing configuration, without consulting the network
oracle; for a non-empty list exactly one detail is emitted per endpoint, the
`i`-th detail depending only on the `i`-th endpoint, so a parse failure on one
endpoint does not abort the probing of the others. -/
theorem c8_connectivity_probe :
    (∀ o : ConnOracle,
      (frontend_check_metasrv_connectivity { metasrv_addrs := [] } o).details
        = [CheckDetail.fail "Metasrv Configuration" "No metasrv addresses configured"
            none (some "Add metasrv addresses to metasrv_addrs configuration")]
      ∧ (frontend_check_metasrv_connectivity { metasrv_addrs := [] } o).success = false)
    ∧ (∀ o o' : ConnOracle,
        frontend_check_metasrv_connectivity { metasrv_addrs := [] } o
          = frontend_check_metasrv_connectivity { metasrv_addrs := [] } o')
    ∧ (∀ (addrs : List String) (o : ConnOracle), addrs ≠ [] →
        (frontend_check_metasrv_connectivity { metasrv_addrs := addrs } o).details.length
          = addrs.length
        ∧ ∀ i : Nat,
            (frontend_check_metasrv_connectivity { metasrv_addrs := addrs } o).details.get? i
              = (addrs.get? i).map (endpoint_detail o i))
    ∧ (∀ o : ConnOracle,
      (datanode_check_metasrv_connectivity (some []) o).details
        = [CheckDetail.fail "Metasrv Configuration" "No metasrv addresses configured"
            none (some "Configure metasrv_addrs in the meta_client section")]
      ∧ (datanode_check_metasrv_connectivity (some []) o).success = false)
    ∧ (∀ o o' : ConnOracle,
        datanode_check_metasrv_connectivity (some []) o
          = datanode_check_metasrv_connectivity (some []) o')
    ∧ (∀ (addrs : List String) (o : ConnOracle), addrs ≠ [] →
        (datanode_check_metasrv_connectivity (some addrs) o).details.length
          = addrs.length
        ∧ ∀ i : Nat,
            (datanode_check_metasrv_connectivity (some addrs) o).details.get? i
              = (addrs.get? i).map (endpoint_detail o i)) := by
  have hmap : ∀ (addrs : List String) (o : ConnOracle) (i : Nat),
      ((addrs.enum.map fun p => endpoint_detail o p.1 p.2).get? i)
        = (addrs.get? i).map (endpoint_detail o i) := by
    intro addrs o i
    rw [List.get?_eq_getElem?, List.get?_eq_getElem?, List.getElem?_map, List.getElem?_enum]
    cases addrs[i]? <;> rfl
  refine ⟨fun o => ⟨rfl, rfl⟩, fun o o' => rfl, ?_, fun o => ⟨rfl, rfl⟩,
    fun o o' => rfl, ?_⟩
  · intro addrs o hne
    have hemp : addrs.isEmpty = false := by
      cases addrs with
      | nil => exact absurd rfl hne
      | cons a t => rfl
    unfold frontend_check_metasrv_connectivity
    simp only [hemp, Bool.false_eq_true, if_false]
    constructor
    · show (addrs.enum.map fun p => endpoint_detail o p.1 p.2).length = addrs.length
      rw [List.length_map, List.enum_length]
    · intro i
      exact hmap addrs o i
  · intro addrs o hne
    have hemp : addrs.isEmpty = false := by
      cases addrs with
      | nil => exact absurd rfl hne
      | cons a t => rfl
    unfold datanode_check_metasrv_connectivity
    simp only [hemp, Bool.false_eq_true, if_false]
    constructor
    · show (addrs.enum.map fun p => endpoint_detail o p.1 p.2).length = addrs.length
      rw [List.length_map, List.enum_length]
    · intro i
      exact hmap addrs o i

/-- C8 witness: a three-endpoint list whose middle endpoint fails to parse;
one detail per endpoint, and the endpoint after the parse failure is still
probed. -/
theorem c8_witness :
    (frontend_check_metasrv_connectivity
        { metasrv_addrs := ["h:1", "bad", "x:2"] }
        { connect := fun _ => ConnectOutcome.ok, elapsed := fun _ => 7 }).details.length
      = 3
    ∧ (frontend_check_metasrv_connectivity
        { metasrv_addrs := ["h:1", "bad", "x:2"] }
        { connect := fun _ => ConnectOutcome.ok, elapsed := fun _ => 7 }).details.get? 1
      = some (CheckDetail.fail "Metasrv Address 2 Parsing"
          ("Failed to parse address \x27bad\x27: "
            ++ AddrError.display (AddrError.missingPort "bad")) none
          (some "Check address format (should be host:port)"))
    ∧ (frontend_check_metasrv_connectivity
        { metasrv_addrs := ["h:1", "bad", "x:2"] }
        { connect := fun _ => ConnectOutcome.ok, elapsed := fun _ => 7 }).details.get? 2
      = some (CheckDetail.pass "Metasrv Connectivity 3"
          "Successfully connected to metasrv at x:2" (some 7)) := by
  have h := c8_connectivity_probe.2.2.1 ["h:1", "bad", "x:2"]
    { connect := fun _ => ConnectOutcome.ok, elapsed := fun _ => 7 }
    (by decide)
  refine ⟨h.1, ?_, ?_⟩
  · exact (h.2 1).trans rfl
  · exact (h.2 2).trans rfl

/-! ## Object-storage verifier (src/datanode.rs)

The S3 client is modelled by an oracle giving the outcome of each operation
the verifier performs.  The performance-lane messages in the source embed
floating-point latency/throughput figures (`{:.2}ms`, `{:.2} MB/s`); floating
point is outside this embedding, so `perfFigures` renders the elapsed
milliseconds only.  No claim depends on those message strings. -/

/-- Outcome of an operation wrapped in a `tokio::time::timeout`. -/
inductive OpOutcome (α : Type) where
  | ok (v : α)
  | err (e : String)
  | timeout

/-- Oracle for one payload size of `performance_test_s3`: write then read. -/
structure SizedPerf where
  write : Except String Unit
  writeElapsed : Nat
  read : Except String (List Nat)
  readElapsed : Nat

/-- Oracle for the S3 operations of `check_s3_storage` and its
performance lanes.  `concurrent100 i` (resp. `concurrent10 i`) is whether the
`i`-th concurrent write succeeded within its bound. -/
structure S3Oracle where
  operatorOk : Except String Unit
  createElapsed : Nat
  listResult : OpOutcome Unit
  listElapsed : Nat
  nonexistentRead : OpOutcome (List Nat)
  writeResult : Except String Unit
  readResult : Except String String
  deleteResult : Except String Unit
  perf64Write : OpOutcome Nat
  perf64Read : OpOutcome Nat
  perf1gWrite : OpOutcome Nat
  concurrent100 : Nat → Bool
  concurrent100Elapsed : Nat
  sized : Nat → SizedPerf
  concurrent10 : Nat → Bool
  concurrent10Elapsed : Nat

/-- Probe payload of the S3 round trip (`b"stepstone-test-data"`). -/
def s3TestData : String := "stepstone-test-data"

/-- Rendering of the latency/throughput figures of performance messages; the
floating-point formatting of the source is reduced to the elapsed
milliseconds. -/
def perfFigures (ms : Nat) : String := toString ms ++ "ms"

/-- Detail of the bucket-listing permission test (test 1 of
`test_s3_bucket_permissions`), classifying the error text. -/
def s3ListPermDetail (o : S3Oracle) : CheckDetail :=
  match o.listResult with
  | OpOutcome.ok _ =>
    CheckDetail.pass "S3 Bucket List Permission"
      "Successfully listed bucket contents (ListBucket permission verified)"
      (some o.listElapsed)
  | OpOutcome.err e =>
    if strContains e "AccessDenied" || strContains e "Forbidden" then
      CheckDetail.fail "S3 Bucket List Permission"
        ("Access denied for bucket listing: " ++ e) (some o.listElapsed)
        (some "Check if the AKSK has ListBucket permission for this bucket")
    else if strContains e "NoSuchBucket" then
      CheckDetail.fail "S3 Bucket Existence"
        ("Bucket does not exist: " ++ e) (some o.listElapsed)
        (some "Create the bucket or check the bucket name in configuration")
    else if strContains e "InvalidAccessKeyId" then
      CheckDetail.fail "S3 Access Key Validation"
        ("Invalid access key: " ++ e) (some o.listElapsed)
        (some "Check the access_key_id in configuration")
    else if strContains e "SignatureDoesNotMatch" then
      CheckDetail.fail "S3 Secret Key Validation"
        ("Invalid secret key: " ++ e) (some o.listElapsed)
        (some "Check the secret_access_key in configuration")
    else
      CheckDetail.warning "S3 Bucket List Permission"
        ("Bucket listing failed: " ++ e) (some o.listElapsed)
        (some "This may indicate network issues or other S3 service problems")
  | OpOutcome.timeout =>
    CheckDetail.warning "S3 Bucket List Permission"
      "Bucket listing timed out (>30s)" (some o.listElapsed)
      (some "Check network connectivity to S3 endpoint")

/-- Detail of the nonexistent-object read (test 5 of
`test_s3_bucket_permissions`): a not-found error is the expected outcome. -/
def s3NonexistentDetail (o : S3Oracle) : CheckDetail :=
  match o.nonexistentRead with
  | OpOutcome.err e =>
    if strContains e "NoSuchKey" || strContains e "NotFound" then
      CheckDetail.pass "S3 Read Permission (Error Handling)"
        "Correctly returned \x27not found\x27 for non-existent object" none
    else if strContains e "AccessDenied" || strContains e "Forbidden" then
      CheckDetail.fail "S3 Read Permission"
        ("Access denied for reading objects: " ++ e) none
        (some "Check if the AKSK has GetObject permission for this bucket")
    else
      CheckDetail.warning "S3 Read Permission (Error Handling)"
        ("Unexpected error for non-existent object: " ++ e) none
        (some "This may indicate permission or configuration issues")
  | OpOutcome.ok _ =>
    CheckDetail.warning "S3 Read Permission (Error Handling)"
      "Unexpectedly found data for non-existent object" none
      (some "This may indicate caching issues or incorrect object naming")
  | OpOutcome.timeout =>
    CheckDetail.warning "S3 Read Permission (Error Handling)"
      "Read test for non-existent object timed out" none
      (some "Check network connectivity to S3 endpoint")

/-- Probe `DatanodeChecker::test_s3_bucket_permissions`: bucket listing and
nonexistent-object read, one detail each. -/
def test_s3_bucket_permissions (o : S3Oracle) : List CheckDetail :=
  [s3ListPermDetail o, s3NonexistentDetail o]

/-- Details of the 64MB write/read lane of `test_s3_performance`. -/
def perf64Details (o : S3Oracle) : List CheckDetail :=
  match o.perf64Write with
  | OpOutcome.ok el =>
    CheckDetail.pass "S3 64MB File Write Performance"
      ("64MB write: " ++ perfFigures el) (some el) ::
    (match o.perf64Read with
     | OpOutcome.ok el2 =>
       [CheckDetail.pass "S3 64MB File Read Performance"
         ("64MB read: " ++ perfFigures el2) (some el2)]
     | OpOutcome.err e =>
       [CheckDetail.warning "S3 64MB File Read Performance"
         ("Read test failed: " ++ e) none (some "Performance test incomplete")]
     | OpOutcome.timeout =>
       [CheckDetail.warning "S3 64MB File Read Performance"
         "Read test timed out (>120s)" none (some "S3 read performance may be slow")])
  | OpOutcome.err e =>
    [CheckDetail.warning "S3 64MB File Write Performance"
      ("Write test failed: " ++ e) none (some "Performance test incomplete")]
  | OpOutcome.timeout =>
    [CheckDetail.warning "S3 64MB File Write Performance"
      "Write test timed out (>120s)" none (some "S3 write performance may be slow")]

/-- Details of the 1GB write lane of `test_s3_performance`. -/
def perf1gDetails (o : S3Oracle) : List CheckDetail :=
  match o.perf1gWrite with
  | OpOutcome.ok el =>
    [CheckDetail.pass "S3 1GB File Write Performance"
      ("1GB write: " ++ perfFigures el) (some el)]
  | OpOutcome.err e =>
    [CheckDetail.warning "S3 1GB File Write Performance"
      ("1GB file write test failed: " ++ e) none
      (some "May indicate bandwidth or timeout issues")]
  | OpOutcome.timeout =>
    [CheckDetail.warning "S3 1GB File Write Performance"
      "1GB file write test timed out (>300s)" none
      (some "S3 write performance for large files may be slow")]

/-- Details of `test_s3_concurrent_performance` (100 concurrent writes). -/
def concurrent100Details (o : S3Oracle) : List CheckDetail :=
  let successfulOps := ((List.range 100).filter fun i => o.concurrent100 i).length
  if successfulOps = 100 then
    [CheckDetail.pass "S3 Concurrent Operations"
      ("100 concurrent writes: " ++ perfFigures o.concurrent100Elapsed)
      (some o.concurrent100Elapsed)]
  else
    [CheckDetail.warning "S3 Concurrent Operations"
      (toString successfulOps ++ "/100 concurrent writes succeeded: "
        ++ perfFigures o.concurrent100Elapsed)
      (some o.concurrent100Elapsed)
      (some "Some concurrent operations failed or timed out")]

/-- Probe `DatanodeChecker::test_s3_performance` (runs after a successful
DELETE): 64MB lane, 1GB lane, then 100 concurrent writes. -/
def test_s3_performance (o : S3Oracle) : List CheckDetail :=
  perf64Details o ++ perf1gDetails o ++ concurrent100Details o

/-- Payload sizes of `performance_test_s3`. -/
def s3TestSizes : List (Nat × String) :=
  [(1024, "1KB"), (1048576, "1MB"), (10485760, "10MB")]

/-- Details for one payload size of `performance_test_s3`: write latency,
then read latency with a size-match check. -/
def sizedPerfDetails (sz : Nat × String) (p : SizedPerf) : List CheckDetail :=
  match p.write with
  | Except.ok _ =>
    CheckDetail.pass ("S3 Write Latency (" ++ sz.2 ++ ")")
      ("Write latency: " ++ perfFigures p.writeElapsed) (some p.writeElapsed) ::
    (match p.read with
     | Except.ok data =>
       if data.length = sz.1 then
         [CheckDetail.pass ("S3 Read Latency (" ++ sz.2 ++ ")")
           ("Read latency: " ++ perfFigures p.readElapsed) (some p.readElapsed)]
       else
         [CheckDetail.fail ("S3 Read Verification (" ++ sz.2 ++ ")")
           ("Data size mismatch: expected " ++ toString sz.1
             ++ ", got " ++ toString data.length)
           (some p.readElapsed) (some "Check S3 data integrity")]
     | Except.error e =>
       [CheckDetail.fail ("S3 Read Test (" ++ sz.2 ++ ")")
         ("Read failed: " ++ e) none
         (some "Check S3 read permissions and connectivity")])
  | Except.error e =>
    [CheckDetail.fail ("S3 Write Test (" ++ sz.2 ++ ")")
      ("Write failed: " ++ e) none
      (some "Check S3 write permissions and connectivity")]

/-- Details of `performance_test_concurrent_s3` (10 concurrent writes). -/
def concurrent10Details (o : S3Oracle) : List CheckDetail :=
  let successfulWrites := ((List.range 10).filter fun i => o.concurrent10 i).length
  if successfulWrites = 10 then
    [CheckDetail.pass "S3 Concurrent Write"
      ("Successfully wrote 10 objects concurrently in "
        ++ perfFigures o.concurrent10Elapsed)
      (some o.concurrent10Elapsed)]
  else
    [CheckDetail.warning "S3 Concurrent Write"
      ("Only " ++ toString successfulWrites ++ "/10 concurrent writes succeeded")
      (some o.concurrent10Elapsed)
      (some "Check S3 rate limits and connection pool settings")]

/-- Probe `DatanodeChecker::performance_test_s3` (runs when the performance
flag is set): three payload sizes, then 10 concurrent writes. -/
def performance_test_s3 (o : S3Oracle) : List CheckDetail :=
  (s3TestSizes.map fun sz => sizedPerfDetails sz (o.sized sz.1)).flatten
    ++ concurrent10Details o

/-- Datanode storage configuration (the fields of `DatanodeStorageConfig`
consumed by the storage checks). -/
structure StorageCfg where
  data_home : Option String
  storage_type : Option String
  bucket : Option String
  root : Option String
  access_key_id : Option String
  secret_access_key : Option String
  endpoint : Option String
  region : Option String

/-- Checker `DatanodeChecker::check_s3_storage`: client construction, bucket
permission discovery, write/read/delete round trip, performance lanes. -/
def check_s3_storage (cfg : StorageCfg) (o : S3Oracle)
    (includePerformance : Bool) : CheckResult :=
  CheckResult.from_details (
    match cfg.bucket with
    | none =>
      [CheckDetail.fail "S3 Configuration" "S3 bucket name is required" none
        (some "Set bucket name in storage configuration")]
    | some _ =>
      match o.operatorOk with
      | Except.error e =>
        [CheckDetail.fail "S3 Client Creation"
          ("Failed to create S3 client: " ++ e) (some o.createElapsed)
          (some "Check S3 configuration and credentials")]
      | Except.ok _ =>
        CheckDetail.pass "S3 Client Creation" "S3 client created successfully"
          (some o.createElapsed) ::
        test_s3_bucket_permissions o ++
        (match o.writeResult with
         | Except.error e =>
           [CheckDetail.fail "S3 PUT Operation" ("PUT operation failed: " ++ e) none
             (some "Check S3 credentials, bucket permissions, and network connectivity")]
         | Except.ok _ =>
           CheckDetail.pass "S3 PUT Operation" "PUT operation successful" none ::
           (match o.readResult with
            | Except.ok data =>
              if data = s3TestData then
                [CheckDetail.pass "S3 GET Operation"
                  "GET operation successful and data matches" none]
              else
                [CheckDetail.fail "S3 GET Operation"
                  "GET operation returned incorrect data" none
                  (some "Check S3 data consistency")]
            | Except.error e =>
              [CheckDetail.fail "S3 GET Operation"
                ("GET operation failed: " ++ e) none
                (some "Check S3 read permissions")]) ++
           (match o.deleteResult with
            | Except.ok _ =>
              CheckDetail.pass "S3 DELETE Operation" "DELETE operation successful" none ::
              test_s3_performance o
            | Except.error e =>
              [CheckDetail.warning "S3 DELETE Operation"
                ("DELETE operation failed: " ++ e) none
                (some "Test object may remain in S3, but this doesn\x27t affect functionality")]) ++
           (if includePerformance then performance_test_s3 o else [])))

/-- Checker `DatanodeChecker::check_oss_storage`: recognized but
unimplemented, a single Warning. -/
def check_oss_storage : CheckResult :=
  CheckResult.from_details
    [CheckDetail.warning "OSS Storage" "OSS storage check not fully implemented yet"
      none (some "OSS support is planned for future versions")]

/-- Checker `DatanodeChecker::check_azblob_storage`. -/
def check_azblob_storage : CheckResult :=
  CheckResult.from_details
    [CheckDetail.warning "Azure Blob Storage"
      "Azure Blob storage check not fully implemented yet" none
      (some "Azure Blob support is planned for future versions")]

/-- Checker `DatanodeChecker::check_gcs_storage`. -/
def check_gcs_storage : CheckResult :=
  CheckResult.from_details
    [CheckDetail.warning "Google Cloud Storage"
      "GCS storage check not fully implemented yet" none
      (some "GCS support is planned for future versions")]

/-- Oracle for the filesystem operations of `check_file_storage`:
`metadataResult` is `fs::metadata` (is-directory flag on success), and
`writeResult` the probe-file write.  The probe file's removal is discarded by
the source. -/
structure FileOracle where
  metadataResult : Except String Bool
  writeResult : Except String Unit

/-- Checker `DatanodeChecker::check_file_storage`. -/
def check_file_storage (cfg : StorageCfg) (fo : FileOracle) : CheckResult :=
  let rootPath := cfg.data_home.getD "./greptimedb_data"
  CheckResult.from_details (
    match fo.metadataResult with
    | Except.ok isDir =>
      if isDir then
        CheckDetail.pass "File Storage Directory"
          ("Storage directory \x27" ++ rootPath ++ "\x27 exists") none ::
        (match fo.writeResult with
         | Except.ok _ =>
           [CheckDetail.pass "File Storage Write Permission"
             "Write permission verified" none]
         | Except.error e =>
           [CheckDetail.fail "File Storage Write Permission"
             ("Write permission test failed: " ++ e) none
             (some "Check directory permissions")])
      else
        [CheckDetail.fail "File Storage Directory"
          ("Storage path \x27" ++ rootPath ++ "\x27 exists but is not a directory")
          none (some "Ensure storage path points to a directory")]
    | Except.error e =>
      [CheckDetail.fail "File Storage Directory"
        ("Storage directory \x27" ++ rootPath
          ++ "\x27 does not exist or is not accessible: " ++ e) none
        (some "Create the storage directory or check permissions")])

/-- Dispatch `DatanodeChecker::check_object_storage` over the configured
storage family (defaulting to `File`). -/
def check_object_storage (storage : Option StorageCfg) (o : S3Oracle)
    (fo : FileOracle) (includePerformance : Bool) : CheckResult :=
  match storage with
  | none =>
    CheckResult.mkFailure "No storage configuration found"
      [CheckDetail.fail "Storage Configuration" "Storage configuration is missing"
        none (some "Add storage configuration section")]
  | some cfg =>
    let st := cfg.storage_type.getD "File"
    if st = "S3" then check_s3_storage cfg o includePerformance
    else if st = "Oss" then check_oss_storage
    else if st = "Azblob" then check_azblob_storage
    else if st = "Gcs" then check_gcs_storage
    else if st = "File" then check_file_storage cfg fo
    else
      CheckResult.mkFailure ("Unknown storage type: " ++ st)
        [CheckDetail.fail "Storage Type" ("Unsupported storage type: " ++ st) none
          (some "Use one of: S3, Oss, Azblob, Gcs, File")]

/-! ## Lemmas and claims about the object-storage verifier -/

/-- Appending the pattern on the right makes it a substring. -/
theorem strContains_append_right (a b : String) : strContains (a ++ b) b = true := by
  show containsSeq (a ++ b).data b.data = true
  rw [data_append]
  have h : a.data ++ b.data = a.data ++ (b.data ++ []) := by simp
  rw [h]
  exact containsSeq_mid _ _ _

/-- Item names the bucket-listing permission test can emit. -/
theorem s3ListPermDetail_item_mem (o : S3Oracle) :
    (s3ListPermDetail o).item ∈
      (["S3 Bucket List Permission", "S3 Bucket Existence",
        "S3 Access Key Validation", "S3 Secret Key Validation"] : List String) := by
  cases h : o.listResult with
  | ok v => simp [s3ListPermDetail, h, CheckDetail.pass]
  | err e =>
    simp only [s3ListPermDetail, h]
    split_ifs <;> simp [CheckDetail.fail, CheckDetail.warning]
  | timeout => simp [s3ListPermDetail, h, CheckDetail.warning]

/-- Item names the nonexistent-object read test can emit. -/
theorem s3NonexistentDetail_item_mem (o : S3Oracle) :
    (s3NonexistentDetail o).item ∈
      (["S3 Read Permission (Error Handling)", "S3 Read Permission"] : List String) := by
  cases h : o.nonexistentRead with
  | ok v => simp [s3NonexistentDetail, h, CheckDetail.warning]
  | err e =>
    simp only [s3NonexistentDetail, h]
    split_ifs <;> simp [CheckDetail.pass, CheckDetail.fail, CheckDetail.warning]
  | timeout => simp [s3NonexistentDetail, h, CheckDetail.warning]

/-- Item names of the bucket permission probe details. -/
theorem test_s3_bucket_permissions_items (o : S3Oracle) :
    ∀ d ∈ test_s3_bucket_permissions o,
      d.item ∈ (["S3 Bucket List Permission", "S3 Bucket Existence",
        "S3 Access Key Validation", "S3 Secret Key Validation",
        "S3 Read Permission (Error Handling)", "S3 Read Permission"] : List String) := by
  intro d hd
  have hcases : d = s3ListPermDetail o ∨ d = s3NonexistentDetail o := by
    simpa [test_s3_bucket_permissions] using hd
  rcases hcases with h | h
  · have hm := s3ListPermDetail_item_mem o
    rw [h]
    rcases (by simpa using hm : _ ∨ _ ∨ _ ∨ _) with h1 | h1 | h1 | h1 <;>
      rw [h1] <;> decide
  · have hm := s3NonexistentDetail_item_mem o
    rw [h]
    rcases (by simpa using hm : _ ∨ _) with h1 | h1 <;> rw [h1] <;> decide

/-- C4: in the S3 round trip, when the write succeeds but the read returns
bytes different from the ones written, the Fail lands on the read-verification
step (with the data-mismatch message, distinct from a read error) immediately
after a Pass on the write step; and when the write fails, no read or delete
step is attempted at all. -/
theorem c4_s3_round_trip (cfg : StorageCfg) (b : String) (o : S3Oracle) (ip : Bool)
    (hb : cfg.bucket = some b) (hop : o.operatorOk = Except.ok ()) :
    (∀ d : String, o.writeResult = Except.ok () → o.readResult = Except.ok d →
      d ≠ s3TestData →
      ∃ pre post, (check_s3_storage cfg o ip).details
        = pre ++ CheckDetail.pass "S3 PUT Operation" "PUT operation successful" none
            :: CheckDetail.fail "S3 GET Operation" "GET operation returned incorrect data"
                none (some "Check S3 data consistency") :: post)
    ∧ (∀ e : String, o.writeResult = Except.error e →
        (check_s3_storage cfg o ip).details
          = CheckDetail.pass "S3 Client Creation" "S3 client created successfully"
              (some o.createElapsed)
            :: test_s3_bucket_permissions o
            ++ [CheckDetail.fail "S3 PUT Operation" ("PUT operation failed: " ++ e) none
                (some "Check S3 credentials, bucket permissions, and network connectivity")]
        ∧ ∀ d ∈ (check_s3_storage cfg o ip).details,
            d.item ≠ "S3 GET Operation" ∧ d.item ≠ "S3 DELETE Operation") := by
  constructor
  · intro d hw hr hne
    refine ⟨CheckDetail.pass "S3 Client Creation" "S3 client created successfully"
        (some o.createElapsed) :: test_s3_bucket_permissions o,
      ((match o.deleteResult with
        | Except.ok _ =>
          CheckDetail.pass "S3 DELETE Operation" "DELETE operation successful" none ::
          test_s3_performance o
        | Except.error e =>
          [CheckDetail.warning "S3 DELETE Operation"
            ("DELETE operation failed: " ++ e) none
            (some "Test object may remain in S3, but this doesn\x27t affect functionality")])
        ++ (if ip then performance_test_s3 o else [])), ?_⟩
    simp only [check_s3_storage, hb, hop, hw, hr, if_neg hne,
      CheckResult.from_details]
    simp [List.append_assoc]
  · intro e hw
    have hdet : (check_s3_storage cfg o ip).details
        = CheckDetail.pass "S3 Client Creation" "S3 client created successfully"
            (some o.createElapsed)
          :: test_s3_bucket_permissions o
          ++ [CheckDetail.fail "S3 PUT Operation" ("PUT operation failed: " ++ e) none
              (some "Check S3 credentials, bucket permissions, and network connectivity")] := by
      simp only [check_s3_storage, hb, hop, hw, CheckResult.from_details]
    refine ⟨hdet, ?_⟩
    intro d hd
    rw [hdet] at hd
    simp only [List.mem_cons, List.mem_append, List.not_mem_nil, or_false] at hd
    rcases hd with (h | h) | h
    · rw [h]
      constructor <;> simp [CheckDetail.pass]
    · have hm := test_s3_bucket_permissions_items o d h
      rcases (by simpa using hm : _ ∨ _ ∨ _ ∨ _ ∨ _ ∨ _) with
        h1 | h1 | h1 | h1 | h1 | h1 <;> rw [h1] <;> exact ⟨by decide, by decide⟩
    · rw [h]
      constructor <;> simp [CheckDetail.fail]

/-- S3 oracle in which every round-trip operation succeeds but the read
returns corrupted bytes. -/
def s3MismatchOracle : S3Oracle :=
  { operatorOk := Except.ok (), createElapsed := 1,
    listResult := OpOutcome.ok (), listElapsed := 1,
    nonexistentRead := OpOutcome.err "NoSuchKey", writeResult := Except.ok (),
    readResult := Except.ok "corrupted", deleteResult := Except.ok (),
    perf64Write := OpOutcome.timeout, perf64Read := OpOutcome.timeout,
    perf1gWrite := OpOutcome.timeout,
    concurrent100 := fun _ => true, concurrent100Elapsed := 1,
    sized := fun _ => { write := Except.ok (), writeElapsed := 1,
                        read := Except.ok [], readElapsed := 1 },
    concurrent10 := fun _ => true, concurrent10Elapsed := 1 }

/-- S3 oracle in which the probe write fails. -/
def s3WriteFailOracle : S3Oracle :=
  { s3MismatchOracle with writeResult := Except.error "AccessDenied" }

/-- S3 storage configuration used by the witnesses. -/
def s3cfg : StorageCfg :=
  { data_home := none, storage_type := some "S3", bucket := some "b",
    root := none, access_key_id := none, secret_access_key := none,
    endpoint := none, region := none }

/-- C4 witness: the theorem applied to a corrupted-read oracle and to a
failed-write oracle. -/
theorem c4_witness :
    (∃ pre post, (check_s3_storage s3cfg s3MismatchOracle false).details
      = pre ++ CheckDetail.pass "S3 PUT Operation" "PUT operation successful" none
          :: CheckDetail.fail "S3 GET Operation" "GET operation returned incorrect data"
              none (some "Check S3 data consistency") :: post)
    ∧ (check_s3_storage s3cfg s3WriteFailOracle false).details
        = CheckDetail.pass "S3 Client Creation" "S3 client created successfully" (some 1)
          :: test_s3_bucket_permissions s3WriteFailOracle
          ++ [CheckDetail.fail "S3 PUT Operation" "PUT operation failed: AccessDenied" none
              (some "Check S3 credentials, bucket permissions, and network connectivity")]
    ∧ (∀ d ∈ (check_s3_storage s3cfg s3WriteFailOracle false).details,
        d.item ≠ "S3 GET Operation" ∧ d.item ≠ "S3 DELETE Operation") := by
  refine ⟨?_, ?_, ?_⟩
  · exact (c4_s3_round_trip s3cfg "b" s3MismatchOracle false rfl rfl).1
      "corrupted" rfl rfl (by decide)
  · exact ((c4_s3_round_trip s3cfg "b" s3WriteFailOracle false rfl rfl).2
      "AccessDenied" rfl).1
  · exact ((c4_s3_round_trip s3cfg "b" s3WriteFailOracle false rfl rfl).2
      "AccessDenied" rfl).2

/-- C9: storage families recognized by name but not implemented (Oss, Azblob,
Gcs) yield exactly one Warning naming the limitation and an overall success;
an unrecognized storage-type string yields a failure whose single Fail detail
names the unsupported value. -/
theorem c9_storage_family_dispatch (cfg : StorageCfg) (o : S3Oracle)
    (fo : FileOracle) (ip : Bool) :
    (cfg.storage_type = some "Oss" →
      check_object_storage (some cfg) o fo ip = check_oss_storage
      ∧ (check_object_storage (some cfg) o fo ip).details
          = [CheckDetail.warning "OSS Storage"
              "OSS storage check not fully implemented yet" none
              (some "OSS support is planned for future versions")]
      ∧ (check_object_storage (some cfg) o fo ip).success = true)
    ∧ (cfg.storage_type = some "Azblob" →
      check_object_storage (some cfg) o fo ip = check_azblob_storage
      ∧ (check_object_storage (some cfg) o fo ip).details
          = [CheckDetail.warning "Azure Blob Storage"
              "Azure Blob storage check not fully implemented yet" none
              (some "Azure Blob support is planned for future versions")]
      ∧ (check_object_storage (some cfg) o fo ip).success = true)
    ∧ (cfg.storage_type = some "Gcs" →
      check_object_storage (some cfg) o fo ip = check_gcs_storage
      ∧ (check_object_storage (some cfg) o fo ip).details
          = [CheckDetail.warning "Google Cloud Storage"
              "GCS storage check not fully implemented yet" none
              (some "GCS support is planned for future versions")]
      ∧ (check_object_storage (some cfg) o fo ip).success = true)
    ∧ (∀ t : String, cfg.storage_type = some t →
        t ≠ "S3" → t ≠ "Oss" → t ≠ "Azblob" → t ≠ "Gcs" → t ≠ "File" →
        check_object_storage (some cfg) o fo ip
          = CheckResult.mkFailure ("Unknown storage type: " ++ t)
              [CheckDetail.fail "Storage Type" ("Unsupported storage type: " ++ t) none
                (some "Use one of: S3, Oss, Azblob, Gcs, File")]
        ∧ (check_object_storage (some cfg) o fo ip).success = false
        ∧ ∀ d ∈ (check_object_storage (some cfg) o fo ip).details,
            strContains d.message t = true) := by
  refine ⟨?_, ?_, ?_, ?_⟩
  · intro h
    have hres : check_object_storage (some cfg) o fo ip = check_oss_storage := by
      simp only [check_object_storage]
      rw [h]
      rfl
    exact ⟨hres, by rw [hres]; rfl, by rw [hres]; rfl⟩
  · intro h
    have hres : check_object_storage (some cfg) o fo ip = check_azblob_storage := by
      simp only [check_object_storage]
      rw [h]
      rfl
    exact ⟨hres, by rw [hres]; rfl, by rw [hres]; rfl⟩
  · intro h
    have hres : check_object_storage (some cfg) o fo ip = check_gcs_storage := by
      simp only [check_object_storage]
      rw [h]
      rfl
    exact ⟨hres, by rw [hres]; rfl, by rw [hres]; rfl⟩
  · intro t ht h1 h2 h3 h4 h5
    have hres : check_object_storage (some cfg) o fo ip
        = CheckResult.mkFailure ("Unknown storage type: " ++ t)
            [CheckDetail.fail "Storage Type" ("Unsupported storage type: " ++ t) none
              (some "Use one of: S3, Oss, Azblob, Gcs, File")] := by
      simp only [check_object_storage]
      rw [ht]
      simp only [Option.getD_some]
      rw [if_neg h1, if_neg h2, if_neg h3, if_neg h4, if_neg h5]
    refine ⟨hres, by rw [hres]; rfl, ?_⟩
    intro d hd
    rw [hres] at hd
    have hde : d = CheckDetail.fail "Storage Type"
        ("Unsupported storage type: " ++ t) none
        (some "Use one of: S3, Oss, Azblob, Gcs, File") := by
      simpa [CheckResult.mkFailure] using hd
    rw [hde]
    exact strContains_append_right "Unsupported storage type: " t

/-- File oracle used by the C9 witness. -/
def fileOkOracle : FileOracle :=
  { metadataResult := Except.ok true, writeResult := Except.ok () }

/-- C9 witness: the theorem applied at an Oss configuration and at an
unrecognized storage-type string. -/
theorem c9_witness :
    check_object_storage
        (some { s3cfg with storage_type := some "Oss" })
        s3MismatchOracle fileOkOracle false
      = check_oss_storage
    ∧ (check_object_storage
        (some { s3cfg with storage_type := some "Oss" })
        s3MismatchOracle fileOkOracle false).success = true
    ∧ (check_object_storage
        (some { s3cfg with storage_type := some "Weird" })
        s3MismatchOracle fileOkOracle false).success = false
    ∧ (∀ d ∈ (check_object_storage
        (some { s3cfg with storage_type := some "Weird" })
        s3MismatchOracle fileOkOracle false).details,
        strContains d.message "Weird" = true) := by
  refine ⟨?_, ?_, ?_, ?_⟩
  · exact ((c9_storage_family_dispatch
      { s3cfg with storage_type := some "Oss" }
      s3MismatchOracle fileOkOracle false).1 rfl).1
  · exact ((c9_storage_family_dispatch
      { s3cfg with storage_type := some "Oss" }
      s3MismatchOracle fileOkOracle false).1 rfl).2.2
  · exact ((c9_storage_family_dispatch
      { s3cfg with storage_type := some "Weird" }
      s3MismatchOracle fileOkOracle false).2.2.2 "Weird" rfl
      (by decide) (by decide) (by decide) (by decide) (by decide)).2.1
  · exact ((c9_storage_family_dispatch
      { s3cfg with storage_type := some "Weird" }
      s3MismatchOracle fileOkOracle false).2.2.2 "Weird" rfl
      (by decide) (by decide) (by decide) (by decide) (by decide)).2.2

end Stepstone
